import Mathlib

/-!
Shallow embedding of the interactive data-table pipeline of
`google/colab/data_table.py` and the deferred handoff cache of
`google/colab/_interactive_table_hint_button.py`, together with proofs
about the claims made of them.

Python dataframes are embedded as explicit tables of cells; Python dicts
as association lists with unique keys (insertion replaces); exceptions
as `Except`; the garbage-collection-driven weak dictionary as an
association list whose entries carry an explicit liveness flag.
-/

set_option autoImplicit false

/-- A JSON-safe tabular cell value: the scalar runtime types the pipeline
distinguishes (text, integers, booleans, raw byte payloads, missing). -/
inductive Cell where
  | str (s : String)
  | int (n : Int)
  | bool (b : Bool)
  | bytes (bs : List Nat)
  | null
  deriving DecidableEq, Repr

/-- First-match lookup in an association list, as Python dict lookup. -/
def dictLookup {α : Type} : List (String × α) → String → Option α
  | [], _ => none
  | p :: rest, k => if p.1 = k then some p.2 else dictLookup rest k

/-- Removal of a key, as Python `dict.pop`'s effect on the mapping. -/
def dictRemove {α : Type} (l : List (String × α)) (k : String) : List (String × α) :=
  l.filter (fun p => p.1 ≠ k)

/-- Assignment `d[k] = v`: replaces any existing binding of `k`. -/
def dictSet {α : Type} (l : List (String × α)) (k : String) (v : α) : List (String × α) :=
  dictRemove l k ++ [(k, v)]

/-- Membership test, as Python `k in d`. -/
def dictContains {α : Type} (l : List (String × α)) (k : String) : Bool :=
  (dictLookup l k).isSome

/-- Number of bindings an association list holds for a key. -/
def countKey {α : Type} (l : List (String × α)) (k : String) : Nat :=
  (l.filter (fun p => p.1 = k)).length

@[simp] theorem dictLookup_nil {α : Type} (k : String) :
    dictLookup ([] : List (String × α)) k = none := rfl

theorem dictLookup_append {α : Type} (l₁ l₂ : List (String × α)) (k : String) :
    dictLookup (l₁ ++ l₂) k =
      match dictLookup l₁ k with
      | some v => some v
      | none => dictLookup l₂ k := by
  induction l₁ with
  | nil => simp [dictLookup]
  | cons p rest ih =>
    cases p with
    | mk k' v =>
      by_cases h : k' = k <;> simp [dictLookup, h, ih]

theorem dictLookup_dictRemove_self {α : Type} (l : List (String × α)) (k : String) :
    dictLookup (dictRemove l k) k = none := by
  induction l with
  | nil => rfl
  | cons p rest ih =>
    cases p with
    | mk k' v =>
      by_cases h : k' = k
      · simp [dictRemove, h] at ih ⊢
        simpa [dictRemove] using ih
      · simp [dictRemove, h] at ih ⊢
        simpa [dictLookup, h, dictRemove] using ih

theorem dictLookup_dictSet_self {α : Type} (l : List (String × α)) (k : String) (v : α) :
    dictLookup (dictSet l k v) k = some v := by
  unfold dictSet
  rw [dictLookup_append, dictLookup_dictRemove_self]
  simp [dictLookup]

theorem dictRemove_single_self {α : Type} (k : String) (v : α) :
    dictRemove [(k, v)] k = [] := by
  simp [dictRemove]

theorem countKey_dictSet_self {α : Type} (l : List (String × α)) (k : String) (v : α) :
    countKey (dictSet l k v) k = 1 := by
  unfold dictSet countKey dictRemove
  rw [List.filter_append]
  have h2 : (l.filter (fun p => p.1 ≠ k)).filter (fun p => decide (p.1 = k)) = [] := by
    induction l with
    | nil => rfl
    | cons p rest ih =>
      by_cases hpk : p.1 = k <;> simp [hpk, ih]
  simp [h2]

/-! ## Value formatting (`data_table.py`, lines 47-65)

`_escape` is Python's `html.escape` (with quotes escaped); since `&` is
replaced first, it acts as an independent per-character substitution. -/

/-- The per-character substitution performed by Python `html.escape`
with its default `quote=True`. -/
def escapeChar (c : Char) : List Char :=
  if c = '&' then ['&', 'a', 'm', 'p', ';']
  else if c = '<' then ['&', 'l', 't', ';']
  else if c = '>' then ['&', 'g', 't', ';']
  else if c = Char.ofNat 34 then ['&', 'q', 'u', 'o', 't', ';']
  else if c = Char.ofNat 39 then ['&', '#', 'x', '2', '7', ';']
  else [c]

/-- `html.escape` on a character list. -/
def escapeList (cs : List Char) : List Char :=
  cs.flatMap escapeChar

/-- `html.escape(s, quote=True)` as imported in `data_table.py`. -/
def _escape (s : String) : String :=
  ⟨escapeList s.data⟩

/-- `bytes.decode('latin1')`: each byte becomes the code point of the same
value; never fails (every byte value is a valid latin-1 code point). -/
def decodeLatin1 (bs : List Nat) : List Char :=
  bs.map (fun b => Char.ofNat (b % 256))

/-- `_force_to_latin1` (data_table.py line 57-58): the fallback formatter
for non-unicode byte payloads; truncates to the first 100 bytes, decodes
permissively, HTML-escapes and brackets with an explicit marker. -/
def _force_to_latin1 (x : List Nat) : String :=
  "nonunicode data: " ++ _escape ⟨decodeLatin1 (x.take 100)⟩ ++ "..."

/-! ## The embedded pandas dataframe -/

/-- A (single-level-column) pandas DataFrame as the pipeline sees it:
named index levels with per-row index labels, named data columns with
row-major data, and a flag recording whether `df.columns` is a
`pd.MultiIndex` (multi-level column labels are not otherwise
representable here).  A multi-level row index is represented by more
than one entry in `indexNames`. -/
structure PandasDF where
  indexNames : List String
  indexRows : List (List Cell)
  colNames : List String
  dataRows : List (List Cell)
  columnsMulti : Bool
  deriving DecidableEq, Repr

/-- `df.shape[0]`. -/
def PandasDF.shape0 (df : PandasDF) : Nat := df.dataRows.length

/-- `df.shape[1]`. -/
def PandasDF.shape1 (df : PandasDF) : Nat := df.colNames.length

/-- `isinstance(df.index, pd.MultiIndex)`: the row index is multi-level. -/
def PandasDF.indexIsMulti (df : PandasDF) : Bool := decide (1 < df.indexNames.length)

/-- `df.index.nlevels`. -/
def PandasDF.nlevels (df : PandasDF) : Nat := df.indexNames.length

/-- `df.iloc[:maxR, :maxC]`: strict prefix truncation of rows and columns;
slicing in pandas is silent and never raises. -/
def PandasDF.iloc (df : PandasDF) (maxR maxC : Nat) : PandasDF :=
  { indexNames := df.indexNames
    indexRows := df.indexRows.take maxR
    colNames := df.colNames.take maxC
    dataRows := (df.dataRows.take maxR).map (fun r => r.take maxC)
    columnsMulti := df.columnsMulti }

/-- `df.reset_index()`: every index level becomes a leading ordinary
column (named by its level name), and the frame gets a fresh unnamed
range index.  The name-collision corner of pandas (an index level named
like an existing column) is outside this model. -/
def PandasDF.reset_index (df : PandasDF) : PandasDF :=
  { indexNames := ["index"]
    indexRows := (List.range df.dataRows.length).map (fun i => [Cell.int i])
    colNames := df.indexNames ++ df.colNames
    dataRows := List.zipWith (fun a b => a ++ b) df.indexRows df.dataRows
    columnsMulti := df.columnsMulti }

/-- `df.copy(deep=False)`: a shallow copy shares the underlying storage,
so at the value level it is the same table. -/
def PandasDF.copy (df : PandasDF) (_deep : Bool) : PandasDF := df

/-- `Index.is_unique` on the column labels. -/
def listUnique : List String → Bool
  | [] => true
  | x :: xs => (!xs.contains x) && listUnique xs

/-- Modelled from the spec: pandas `DataFrame._repr_html_`, the external
plain (non-interactive) HTML rendering of a dataframe; out of the core's
scope, abstracted as a total rendering function. -/
def pandasReprHtml (df : PandasDF) : String :=
  "<table>" ++ String.intercalate "," df.colNames ++ "</table>"

/-! ## DataTable (`data_table.py`, lines 68-208) -/

/-- The process-wide configurable class attributes of `DataTable`
(data_table.py lines 78-82). -/
structure DataTableClass where
  include_index : Bool := true
  num_rows_per_page : Nat := 25
  max_rows : Nat := 20000
  max_columns : Nat := 20
  deriving DecidableEq, Repr

/-- The class attributes at their shipped default values. -/
def defaultDataTableClass : DataTableClass := {}

/-- The optional per-call keyword arguments of the `DataTable`
constructor (each `none` falls back to the class attribute). -/
structure Kwargs where
  include_index : Option Bool := none
  num_rows_per_page : Option Nat := none
  max_rows : Option Nat := none
  max_columns : Option Nat := none
  deriving DecidableEq, Repr

/-- No keyword arguments: every option defaulted. -/
def noKwargs : Kwargs := {}

/-- A constructed `DataTable` instance (its `self._*` attributes). -/
structure DataTable where
  dataframe : PandasDF
  include_index : Bool
  num_rows_per_page : Nat
  max_rows : Nat
  max_columns : Nat
  deriving DecidableEq, Repr

/-- `DataTable.__init__` (data_table.py lines 98-126): stores the
dataframe and resolves each option against the class attribute. -/
def DataTable.make (cls : DataTableClass) (df : PandasDF) (kw : Kwargs) : DataTable :=
  { dataframe := df
    include_index := kw.include_index.getD cls.include_index
    num_rows_per_page := kw.num_rows_per_page.getD cls.num_rows_per_page
    max_rows := kw.max_rows.getD cls.max_rows
    max_columns := kw.max_columns.getD cls.max_columns }

/-- The result of `_preprocess_dataframe`: either still a pandas
DataFrame, or — on the duplicate-column-name path — the numpy record
array produced by `to_records` / multi-field selection, which carries
only positional field names and the row data. -/
inductive Prep where
  | frame (df : PandasDF)
  | records (names : List String) (rows : List (List Cell))
  deriving DecidableEq, Repr

/-- First statement of `_preprocess_dataframe` (line 129):
`self._dataframe.iloc[:self._max_rows, :self._max_columns]`. -/
def DataTable.truncated (t : DataTable) : PandasDF :=
  t.dataframe.iloc t.max_rows t.max_columns

/-- Second statement (lines 131-132): reset the index into leading
columns when `self._include_index` or the truncated frame has no data
columns. -/
def DataTable.flattened (t : DataTable) : PandasDF :=
  if t.include_index || (t.truncated.shape1 == 0) then t.truncated.reset_index
  else t.truncated

/-- `_preprocess_dataframe` (lines 128-138).  On non-unique column names
the frame is routed through `copy` / `columns = range(n)` /
`to_records(index=False)` / selection of every positional field, which
yields a numpy record array whose field names are `str(0..n-1)`. -/
def DataTable.preprocess (t : DataTable) : Prep :=
  if listUnique t.flattened.colNames then .frame t.flattened
  else .records ((List.range t.flattened.shape1).map toString) t.flattened.dataRows

/-! ## Payload encoding (`_gen_js`, lines 160-208)

`_interactive_table_helper` is not part of this repository snapshot, so
its two entry points are modelled from the spec. -/

/-- Modelled from the spec: the formatter
`_interactive_table_helper._find_formatter(_DEFAULT_FORMATTERS)` —
dispatch by declared scalar type: textual values go through the
(identity) text formatter, everything else passes through. -/
def findFormatter (c : Cell) : Cell :=
  match c with
  | .str s => .str s
  | c => c

/-- Modelled from the spec: per-value formatting inside
`_interactive_table_helper._format_data` — undecodable byte payloads go
to the designated non-unicode fallback (`_force_to_latin1`), everything
else through the dispatched formatter. -/
def formatCell (c : Cell) : Cell :=
  match c with
  | .bytes bs => .str (_force_to_latin1 bs)
  | c => findFormatter c

/-- Modelled from the spec: the semantic type tag inferred for a column
from its declared runtime type (closed tag set; stable per type). -/
def columnTypeOf (cells : List Cell) : String :=
  if cells.all (fun c => match c with | .int _ => true | _ => false) then "number"
  else if cells.all (fun c => match c with | .str _ => true | _ => false) then "string"
  else if cells.all (fun c => match c with | .bool _ => true | _ => false) then "boolean"
  else "object"

/-- The dictionary returned by `_format_data`: the formatted row data
and one inferred type tag per column. -/
structure FormattedData where
  data : List (List Cell)
  column_types : List String
  deriving DecidableEq, Repr

/-- Modelled from the spec: `_interactive_table_helper._format_data` —
walks the data, applies the per-column formatter to every value, and
infers one semantic type tag per column. -/
def _format_data (rows : List (List Cell)) (ncols : Nat) : FormattedData :=
  { data := rows.map (fun r => r.map formatCell)
    column_types := (List.range ncols).map
      (fun j => columnTypeOf (rows.filterMap (fun r => r[j]?))) }

/-- A per-column rendering hint of the payload. -/
structure ColumnOption where
  width : String
  className : String
  deriving DecidableEq, Repr

/-- The fixed hint emitted for every index-derived column
(data_table.py lines 186-189). -/
def indexColumnOption : ColumnOption :=
  { width := "1px", className := "index_column" }

/-- data_table.py line 43. -/
def dataTableHelpUrl : String :=
  "https://colab.research.google.com/notebooks/data_table.ipynb"

/-- The structured javascript-module payload assembled by `_gen_js`:
formatted rows, `(type tag, header)` descriptors, per-index-column
rendering hints, and the passed-through page-size and help-url knobs. -/
structure Payload where
  data : List (List Cell)
  columns : List (String × String)
  columnOptions : List ColumnOption
  rowsPerPage : Nat
  helpUrl : String
  deriving DecidableEq, Repr

deriving instance DecidableEq for Except

/-- The AttributeError raised when `_gen_js` reads `.columns` on the
numpy record array produced by the duplicate-column-name path: a numpy
`recarray` has no `columns` (nor `values`) attribute. -/
def recarrayAttributeError : String :=
  "AttributeError: recarray has no attribute columns"

/-- `_gen_js` (lines 160-208) on a preprocessed frame, as a fallible
computation.  On a record array the very first statement,
`columns = dataframe.columns`, raises.  On a DataFrame it formats the
data, pairs each inferred column type with the (string-formatted)
header, and emits one fixed-width hint per index level of the original
dataframe exactly when `self._include_index` is set. -/
def DataTable._gen_js (t : DataTable) (p : Prep) : Except String Payload :=
  match p with
  | .records _ _ => .error recarrayAttributeError
  | .frame df =>
    let fd := _format_data df.dataRows df.shape1
    .ok { data := fd.data
          columns := List.zip fd.column_types df.colNames
          columnOptions :=
            if t.include_index then
              List.replicate t.dataframe.nlevels indexColumnOption
            else []
          rowsPerPage := t.num_rows_per_page
          helpUrl := dataTableHelpUrl }

/-- `_repr_javascript_module_` (lines 153-158): the whole
preprocess-and-encode attempt behind a bare `except` that prints the
traceback and returns `None`. -/
def DataTable._repr_javascript_module_ (t : DataTable) : Option Payload :=
  (t._gen_js t.preprocess).toOption

/-- The mime bundle assembled by `_repr_mimebundle_`: the plain HTML
rendering, optionally the structured payload, and the diagnostic
printed to the error/trace channel when encoding failed. -/
structure MimeBundle where
  textHtml : String
  jsModule : Option Payload
  traceback : Option String
  deriving DecidableEq, Repr

/-- `_repr_mimebundle_` (lines 140-148): the bundle starts from the
plain HTML rendering; preprocessing and encoding run inside a bare
`except` whose handler prints the traceback, so a failure leaves the
HTML-only bundle instead of propagating. -/
def DataTable._repr_mimebundle_ (t : DataTable) : MimeBundle :=
  match t._gen_js t.preprocess with
  | .ok p => { textHtml := pandasReprHtml t.dataframe, jsModule := some p, traceback := none }
  | .error e => { textHtml := pandasReprHtml t.dataframe, jsModule := none, traceback := some e }

/-- The pre-flight check of `DataTable.formatter` (lines 86-95): decline
for multi-level columns or index, or when the dataframe's shape exceeds
the class-level ceilings. -/
def DataTable.declines (cls : DataTableClass) (df : PandasDF) : Bool :=
  df.columnsMulti || df.indexIsMulti
    || decide (df.shape0 > cls.max_rows) || decide (df.shape1 > cls.max_columns)

/-- `DataTable.formatter` (lines 84-96): four early `None` returns
against the class attributes, then construction with the per-call
keyword arguments and the javascript-module rendering. -/
def DataTable.formatter (cls : DataTableClass) (df : PandasDF) (kw : Kwargs) : Option Payload :=
  if df.columnsMulti then none
  else if df.indexIsMulti then none
  else if df.shape0 > cls.max_rows then none
  else if df.shape1 > cls.max_columns then none
  else (DataTable.make cls df kw)._repr_javascript_module_

/-! ## Handoff cache (`_interactive_table_hint_button.py`) -/

/-- An entry of the `weakref.WeakValueDictionary`: the association lives
only while some external owner keeps the dataframe alive, so each entry
carries an explicit liveness flag; a dead entry is invisible to `in` /
`pop`. -/
structure WeakEntry where
  df : PandasDF
  alive : Bool
  deriving DecidableEq, Repr

/-- The module-level mutable state of
`_interactive_table_hint_button.py`: the weak registry
`_noninteractive_df_refs` (line 71), the single-entry strong cache
`_last_noninteractive_df` (line 74), the `_output_callbacks` dict (line
101), and a counter minting distinct callback bindings. -/
structure HintState where
  noninteractive_df_refs : List (String × WeakEntry)
  last_noninteractive_df : List (String × PandasDF)
  output_callbacks : List (String × Nat)
  callback_counter : Nat
  deriving DecidableEq, Repr

/-- The state with empty caches and no registered callbacks. -/
def emptyHintState : HintState :=
  { noninteractive_df_refs := []
    last_noninteractive_df := []
    output_callbacks := []
    callback_counter := 0 }

/-- `key in weakdict` / `weakdict[key]`, visible only while alive. -/
def weakLookup (l : List (String × WeakEntry)) (k : String) : Option PandasDF :=
  match dictLookup l k with
  | some e => if e.alive then some e.df else none
  | none => none

/-- The external event of the last owner releasing a dataframe: the weak
association for that key (if any) dies. -/
def releaseWeakRef (st : HintState) (k : String) : HintState :=
  { st with
    noninteractive_df_refs :=
      st.noninteractive_df_refs.map
        (fun p => if p.1 = k then (p.1, WeakEntry.mk p.2.df false) else p) }

/-- The user-facing message printed by `_get_dataframe` (lines 89-92)
when no live entry exists for the key. -/
def staleKeyMessage : String :=
  "Error: Runtime no longer has a reference to this dataframe, please re-run this cell and try again."

/-- `_get_dataframe` (lines 84-92): consult the strong slot first
(`pop`, remove-on-hit), then the weak registry (`pop`, contingent on
liveness), else print the explanatory message and return `None`.  The
result is `(returned dataframe, printed message, new state)`. -/
def _get_dataframe (st : HintState) (key : String) :
    Option PandasDF × Option String × HintState :=
  match dictLookup st.last_noninteractive_df key with
  | some df =>
    (some df, none,
      { st with last_noninteractive_df := dictRemove st.last_noninteractive_df key })
  | none =>
    match weakLookup st.noninteractive_df_refs key with
    | some df =>
      (some df, none,
        { st with noninteractive_df_refs := dictRemove st.noninteractive_df_refs key })
    | none => (none, some staleKeyMessage, st)

/-- `_convert_to_interactive` (lines 77-81): resolve the key and, if a
dataframe was found, build a `DataTable` from it with default options;
otherwise return `None` (after the printed message). -/
def _convert_to_interactive (cls : DataTableClass) (st : HintState) (key : String) :
    Option DataTable × Option String × HintState :=
  match _get_dataframe st key with
  | (some df, msg, st') => (some (DataTable.make cls df noKwargs), msg, st')
  | (none, msg, st') => (none, msg, st')

/-- The name under which the conversion entry point is registered. -/
def convertFuncName : String := "convertToInteractive"

/-- Modelled from the spec: `google.colab.output.register_callback`
(not part of this repository snapshot) mints a fresh callback binding;
bindings are told apart here by a counter.  Lines 113-117: register
`convertToInteractive` only if it is not already in
`_output_callbacks`. -/
def ensureConvertCallback (st : HintState) : HintState :=
  if dictContains st.output_callbacks convertFuncName then st
  else
    { st with
      output_callbacks := dictSet st.output_callbacks convertFuncName st.callback_counter
      callback_counter := st.callback_counter + 1 }

/-- The embedding markup produced by `_get_html` (lines 121-165),
abstracted to its data dependencies (the key and the plain rendering). -/
def _get_html (df : PandasDF) (key : String) : String :=
  "<div id=" ++ key ++ ">" ++ pandasReprHtml df ++ "</div>"

/-- `_df_formatter_with_interactive_hint` (lines 104-118) with the
minted uuid key lifted to a parameter: store the dataframe weakly under
the fresh key, clear the strong slot and store a shallow copy under the
same key, ensure the conversion callback is registered, and return the
hint markup. -/
def _df_formatter_with_interactive_hint (st : HintState) (key : String) (df : PandasDF) :
    String × HintState :=
  let st1 := { st with
    noninteractive_df_refs :=
      dictSet st.noninteractive_df_refs key { df := df, alive := true } }
  let st2 := { st1 with last_noninteractive_df := dictSet [] key (df.copy false) }
  let st3 := ensureConvertCallback st2
  (_get_html df key, st3)

theorem ensureConvertCallback_refs (st : HintState) :
    (ensureConvertCallback st).noninteractive_df_refs = st.noninteractive_df_refs := by
  unfold ensureConvertCallback
  split <;> rfl

theorem ensureConvertCallback_last (st : HintState) :
    (ensureConvertCallback st).last_noninteractive_df = st.last_noninteractive_df := by
  unfold ensureConvertCallback
  split <;> rfl

/-! ## Claim theorems -/

theorem escapeChar_safe (a c : Char) (hc : c ∈ escapeChar a) :
    c ≠ '<' ∧ c ≠ '>' ∧ c ≠ Char.ofNat 34 := by
  by_cases h1 : a = '&'
  · subst h1
    have he : escapeChar '&' = ['&', 'a', 'm', 'p', ';'] := rfl
    rw [he] at hc
    simp only [List.mem_cons, List.not_mem_nil, or_false] at hc
    rcases hc with rfl | rfl | rfl | rfl | rfl <;> exact ⟨by decide, by decide, by decide⟩
  by_cases h2 : a = '<'
  · subst h2
    have he : escapeChar '<' = ['&', 'l', 't', ';'] := rfl
    rw [he] at hc
    simp only [List.mem_cons, List.not_mem_nil, or_false] at hc
    rcases hc with rfl | rfl | rfl | rfl <;> exact ⟨by decide, by decide, by decide⟩
  by_cases h3 : a = '>'
  · subst h3
    have he : escapeChar '>' = ['&', 'g', 't', ';'] := rfl
    rw [he] at hc
    simp only [List.mem_cons, List.not_mem_nil, or_false] at hc
    rcases hc with rfl | rfl | rfl | rfl <;> exact ⟨by decide, by decide, by decide⟩
  by_cases h4 : a = Char.ofNat 34
  · subst h4
    have he : escapeChar (Char.ofNat 34) = ['&', 'q', 'u', 'o', 't', ';'] := rfl
    rw [he] at hc
    simp only [List.mem_cons, List.not_mem_nil, or_false] at hc
    rcases hc with rfl | rfl | rfl | rfl | rfl | rfl <;> exact ⟨by decide, by decide, by decide⟩
  by_cases h5 : a = Char.ofNat 39
  · subst h5
    have he : escapeChar (Char.ofNat 39) = ['&', '#', 'x', '2', '7', ';'] := rfl
    rw [he] at hc
    simp only [List.mem_cons, List.not_mem_nil, or_false] at hc
    rcases hc with rfl | rfl | rfl | rfl | rfl | rfl <;> exact ⟨by decide, by decide, by decide⟩
  · have he : escapeChar a = [a] := by
      unfold escapeChar
      rw [if_neg h1, if_neg h2, if_neg h3, if_neg h4, if_neg h5]
    rw [he] at hc
    simp only [List.mem_singleton] at hc
    subst hc
    exact ⟨h2, h3, h4⟩

/-- C4: the fallback (non-unicode) formatter never raises: on any byte
input it yields the marker `nonunicode data: `, then the HTML-escaped
latin-1 decoding of at most the first 100 bytes (so the pre-escaping
payload has at most 100 characters and the escaped text is free of raw
markup characters), terminated by `...`. -/
theorem force_to_latin1_fallback_spec (bs : List Nat) :
    _force_to_latin1 bs
      = "nonunicode data: " ++ String.mk (escapeList (decodeLatin1 (bs.take 100))) ++ "..."
    ∧ (decodeLatin1 (bs.take 100)).length ≤ 100
    ∧ ∀ c, c ∈ escapeList (decodeLatin1 (bs.take 100)) →
        c ≠ '<' ∧ c ≠ '>' ∧ c ≠ Char.ofNat 34 := by
  refine ⟨rfl, ?_, ?_⟩
  · simp only [decodeLatin1, List.length_map, List.length_take]
    exact min_le_left _ _
  · intro c hc
    rcases List.mem_flatMap.1 hc with ⟨a, _, hca⟩
    exact escapeChar_safe a c hca

theorem force_to_latin1_fallback_spec_witness :
    _force_to_latin1 [60, 97]
      = "nonunicode data: " ++ String.mk (escapeList (decodeLatin1 ([60, 97].take 100))) ++ "..."
    ∧ ('&' ≠ '<' ∧ '&' ≠ '>' ∧ '&' ≠ Char.ofNat 34) := by
  have h := force_to_latin1_fallback_spec [60, 97]
  exact ⟨h.1, h.2.2 '&' (by decide)⟩

/-- C2: preprocessing first truncates to the first `max_rows` rows and
first `max_columns` columns, keeping their original order (by prefix
`take`, which is silent and total), and then flattens every index level
into leading ordinary columns exactly when `include_index` is set or the
truncated frame has zero data columns. -/
theorem preprocess_truncates_then_flattens (t : DataTable) :
    t.truncated.colNames = t.dataframe.colNames.take t.max_columns
    ∧ t.truncated.indexRows = t.dataframe.indexRows.take t.max_rows
    ∧ t.truncated.indexNames = t.dataframe.indexNames
    ∧ t.truncated.dataRows.length = min t.max_rows t.dataframe.shape0
    ∧ (∀ i, i < t.truncated.dataRows.length →
        t.truncated.dataRows[i]? = (t.dataframe.dataRows[i]?).map (fun r => r.take t.max_columns))
    ∧ ((t.include_index = true ∨ t.truncated.shape1 = 0) →
        t.flattened.colNames = t.dataframe.indexNames ++ t.truncated.colNames
        ∧ t.flattened.dataRows
            = List.zipWith (fun a b => a ++ b) t.truncated.indexRows t.truncated.dataRows)
    ∧ (t.include_index = false ∧ t.truncated.shape1 ≠ 0 → t.flattened = t.truncated) := by
  refine ⟨rfl, rfl, rfl, ?_, ?_, ?_, ?_⟩
  · simp [DataTable.truncated, PandasDF.iloc, PandasDF.shape0]
  · intro i hi
    have hlt : i < t.max_rows := by
      have := hi
      simp [DataTable.truncated, PandasDF.iloc] at this
      omega
    simp only [DataTable.truncated, PandasDF.iloc, List.getElem?_map]
    rw [List.getElem?_take_of_lt hlt]
  · intro h
    have hcond : (t.include_index || (t.truncated.shape1 == 0)) = true := by
      rcases h with h | h <;> simp [h]
    have hflat : t.flattened = t.truncated.reset_index := by
      unfold DataTable.flattened
      simp [hcond]
    rw [hflat]
    exact ⟨rfl, rfl⟩
  · intro h
    have hz : (t.truncated.shape1 == 0) = false := by
      cases hn : t.truncated.shape1 with
      | zero => exact absurd hn h.2
      | succ n => simp
    have hcond : (t.include_index || (t.truncated.shape1 == 0)) = false := by
      simp [h.1, hz]
    unfold DataTable.flattened
    simp [hcond]

theorem preprocess_truncates_then_flattens_witness :
    (DataTable.make defaultDataTableClass
        { indexNames := ["index"], indexRows := [[Cell.int 0], [Cell.int 1]],
          colNames := ["a"], dataRows := [[Cell.int 10], [Cell.int 20]],
          columnsMulti := false } { max_rows := some 1 }).truncated.dataRows[0]?
      = some [Cell.int 10]
    ∧ (DataTable.make defaultDataTableClass
        { indexNames := ["index"], indexRows := [[Cell.int 0], [Cell.int 1]],
          colNames := ["a"], dataRows := [[Cell.int 10], [Cell.int 20]],
          columnsMulti := false } { max_rows := some 1 }).flattened.colNames
      = ["index", "a"] := by
  have h := preprocess_truncates_then_flattens
    (DataTable.make defaultDataTableClass
      { indexNames := ["index"], indexRows := [[Cell.int 0], [Cell.int 1]],
        colNames := ["a"], dataRows := [[Cell.int 10], [Cell.int 20]],
        columnsMulti := false } { max_rows := some 1 })
  refine ⟨?_, ?_⟩
  · rw [h.2.2.2.2.1 0 (by decide)]
    decide
  · rw [(h.2.2.2.2.2.1 (Or.inl (by decide))).1]
    decide

theorem repr_js_none_iff (t : DataTable) :
    t._repr_javascript_module_ = none ↔ listUnique t.flattened.colNames = false := by
  unfold DataTable._repr_javascript_module_ DataTable.preprocess
  cases h : listUnique t.flattened.colNames
  · simp [h, DataTable._gen_js, Except.toOption]
  · simp [h, DataTable._gen_js, Except.toOption]

/-- C1 (amended): `formatter` returns no structured payload iff the
columns or index is multi-level, the row count exceeds the class-level
`max_rows`, the column count exceeds the class-level `max_columns`, or
the column labels of the truncated-and-flattened table are not pairwise
unique (on which the encode attempt fails); every dataframe inside all
four limits whose flattened labels are unique yields the payload. -/
theorem formatter_none_iff (cls : DataTableClass) (df : PandasDF) (kw : Kwargs) :
    DataTable.formatter cls df kw = none ↔
      (df.columnsMulti = true ∨ df.indexIsMulti = true
        ∨ df.shape0 > cls.max_rows ∨ df.shape1 > cls.max_columns
        ∨ listUnique (DataTable.make cls df kw).flattened.colNames = false) := by
  unfold DataTable.formatter
  by_cases h1 : df.columnsMulti = true <;> by_cases h2 : df.indexIsMulti = true
    <;> by_cases h3 : df.shape0 > cls.max_rows <;> by_cases h4 : df.shape1 > cls.max_columns
    <;> simp [h1, h2, h3, h4, repr_js_none_iff]

/-- A one-row dataframe with two columns both labelled `x`: single-level
index and columns, well inside the default ceilings. -/
def dfDupX : PandasDF :=
  { indexNames := ["index"], indexRows := [[Cell.int 0]],
    colNames := ["x", "x"], dataRows := [[Cell.int 1, Cell.int 2]], columnsMulti := false }

/-- C1 counterexample: `dfDupX` is within all four limits (no
multi-level structure, 1 row, 2 columns), yet `formatter` returns no
structured payload, because the duplicate column label makes the encode
path fail. -/
theorem formatter_none_within_limits_counterexample :
    DataTable.formatter defaultDataTableClass dfDupX noKwargs = none
    ∧ dfDupX.columnsMulti = false
    ∧ dfDupX.indexIsMulti = false
    ∧ dfDupX.shape0 ≤ defaultDataTableClass.max_rows
    ∧ dfDupX.shape1 ≤ defaultDataTableClass.max_columns := by
  exact ⟨by decide, rfl, by decide, by decide, by decide⟩

/-- The `DataTable` the formatter builds over `dfDupX` with default
options. -/
def tDupX : DataTable := DataTable.make defaultDataTableClass dfDupX noKwargs

/-- C3 at the failing input: preprocessing does substitute positional
field names (`"0"`, `"1"`, `"2"`) for the duplicated labels, but the
encode step then fails — the record array `to_records` produced has no
`columns` / `values` attribute, so `_gen_js`'s first statement raises —
and no payload containing the two columns' values is produced. -/
theorem duplicate_columns_encode_fails :
    tDupX.preprocess
      = Prep.records ["0", "1", "2"] [[Cell.int 0, Cell.int 1, Cell.int 2]]
    ∧ tDupX._gen_js tDupX.preprocess = Except.error recarrayAttributeError
    ∧ tDupX._repr_javascript_module_ = none := by
  exact ⟨by decide, by decide, by decide⟩

/-- C8: the mime bundle always contains the plain HTML rendering of the
source dataframe; if preprocessing or encoding fails, the boundary
catches the exception, reports the diagnostic, and returns the
HTML-only degraded bundle; if it succeeds the structured payload is
attached.  Both reprs are total — nothing propagates to the host. -/
theorem mimebundle_always_html_and_catches_errors (t : DataTable) :
    (t._repr_mimebundle_).textHtml = pandasReprHtml t.dataframe
    ∧ (∀ e, t._gen_js t.preprocess = Except.error e →
        (t._repr_mimebundle_).jsModule = none
        ∧ (t._repr_mimebundle_).traceback = some e
        ∧ t._repr_javascript_module_ = none)
    ∧ (∀ p, t._gen_js t.preprocess = Except.ok p →
        (t._repr_mimebundle_).jsModule = some p
        ∧ (t._repr_mimebundle_).traceback = none) := by
  cases h : t._gen_js t.preprocess with
  | ok p =>
    refine ⟨?_, ?_, ?_⟩
    · simp [DataTable._repr_mimebundle_, h]
    · intro e he
      exact absurd he (by simp)
    · intro q hq
      injection hq with hpq
      subst hpq
      constructor <;> simp [DataTable._repr_mimebundle_, h]
  | error e =>
    refine ⟨?_, ?_, ?_⟩
    · simp [DataTable._repr_mimebundle_, h]
    · intro e' he
      injection he with hee
      subst hee
      refine ⟨?_, ?_, ?_⟩ <;>
        simp [DataTable._repr_mimebundle_, DataTable._repr_javascript_module_, h, Except.toOption]
    · intro q hq
      exact absurd hq (by simp)

theorem mimebundle_always_html_and_catches_errors_witness :
    (tDupX._repr_mimebundle_).textHtml = pandasReprHtml tDupX.dataframe
    ∧ (tDupX._repr_mimebundle_).jsModule = none
    ∧ (tDupX._repr_mimebundle_).traceback = some recarrayAttributeError := by
  have h := mimebundle_always_html_and_catches_errors tDupX
  have he := h.2.1 recarrayAttributeError (by decide)
  exact ⟨h.1, he.1, he.2.1⟩

/-- C9 (amended): in any produced payload, `columnOptions` holds one
fixed hint per level of the original dataframe's index exactly when
`include_index` is set (in which case the index was indeed flattened);
when `include_index` is false it is empty — even in the
zero-data-column case where the index was still flattened. -/
theorem column_options_per_index_level_iff_include_index (t : DataTable) (p : Payload)
    (h : t._gen_js t.preprocess = Except.ok p) :
    (t.include_index = true →
      p.columnOptions = List.replicate t.dataframe.nlevels indexColumnOption
      ∧ t.flattened.colNames = t.dataframe.indexNames ++ t.truncated.colNames)
    ∧ (t.include_index = false → p.columnOptions = []) := by
  cases hp : t.preprocess with
  | records ns rs =>
    rw [hp] at h
    simp [DataTable._gen_js] at h
  | frame df =>
    rw [hp] at h
    simp only [DataTable._gen_js, Except.ok.injEq] at h
    constructor
    · intro hii
      constructor
      · rw [← h]
        simp [hii]
      · have hcond : (t.include_index || (t.truncated.shape1 == 0)) = true := by simp [hii]
        have hflat : t.flattened = t.truncated.reset_index := by
          unfold DataTable.flattened
          simp [hcond]
        rw [hflat]
        rfl
    · intro hii
      rw [← h]
      simp [hii]

/-- A two-row dataframe with distinct labels, used to exercise the
successful encode path. -/
def dfSimple : PandasDF :=
  { indexNames := ["index"], indexRows := [[Cell.int 0], [Cell.int 1]],
    colNames := ["a", "b"],
    dataRows := [[Cell.int 10, Cell.str "u"], [Cell.int 20, Cell.bool true]],
    columnsMulti := false }

/-- The table built from `dfSimple` with default options. -/
def tSimple : DataTable := DataTable.make defaultDataTableClass dfSimple noKwargs

/-- The payload `tSimple` encodes to. -/
def pSimple : Payload :=
  { data := [[Cell.int 0, Cell.int 10, Cell.str "u"], [Cell.int 1, Cell.int 20, Cell.bool true]]
    columns := [("number", "index"), ("number", "a"), ("object", "b")]
    columnOptions := [indexColumnOption]
    rowsPerPage := 25
    helpUrl := dataTableHelpUrl }

theorem column_options_per_index_level_iff_include_index_witness :
    pSimple.columnOptions = List.replicate tSimple.dataframe.nlevels indexColumnOption
    ∧ tSimple.include_index = true := by
  have h := column_options_per_index_level_iff_include_index tSimple pSimple (by decide)
  exact ⟨(h.1 rfl).1, rfl⟩

/-- A dataframe with one single-level index level and no data columns. -/
def dfZeroCols : PandasDF :=
  { indexNames := ["index"], indexRows := [[Cell.int 0]],
    colNames := [], dataRows := [[]], columnsMulti := false }

/-- The table over `dfZeroCols` built with `include_index` overridden to
false. -/
def tZeroCols : DataTable :=
  DataTable.make defaultDataTableClass dfZeroCols { include_index := some false }

/-- C9 counterexample: with `include_index` false and zero data columns
the index IS flattened into a leading ordinary column, yet the produced
payload's `columnOptions` is empty rather than one entry per index
level. -/
theorem column_options_empty_despite_flattening_counterexample :
    ((tZeroCols._gen_js tZeroCols.preprocess).toOption.map Payload.columnOptions) = some []
    ∧ tZeroCols.flattened.colNames
        = tZeroCols.dataframe.indexNames ++ tZeroCols.truncated.colNames
    ∧ tZeroCols.dataframe.nlevels = 1
    ∧ List.replicate tZeroCols.dataframe.nlevels indexColumnOption ≠ [] := by
  exact ⟨by decide, by decide, rfl, by decide⟩

theorem formatter_eq_gate (cls : DataTableClass) (df : PandasDF) (kw : Kwargs) :
    DataTable.formatter cls df kw
      = if DataTable.declines cls df = true then none
        else (DataTable.make cls df kw)._repr_javascript_module_ := by
  unfold DataTable.formatter DataTable.declines
  by_cases h1 : df.columnsMulti = true <;> by_cases h2 : df.indexIsMulti = true
    <;> by_cases h3 : df.shape0 > cls.max_rows <;> by_cases h4 : df.shape1 > cls.max_columns
    <;> simp [h1, h2, h3, h4]

/-- C10: the decline decision of `formatter` is taken before
construction, against the class-level ceilings and only the dataframe's
shape and level structure; the per-call keyword overrides are merely
passed to the constructed table, where they govern the truncation
bounds used afterwards. -/
theorem formatter_gate_uses_class_defaults (cls : DataTableClass) (df df' : PandasDF)
    (kw : Kwargs) :
    (DataTable.declines cls df = true → DataTable.formatter cls df kw = none)
    ∧ (DataTable.declines cls df = false →
        DataTable.formatter cls df kw = (DataTable.make cls df kw)._repr_javascript_module_)
    ∧ (df.shape0 = df'.shape0 → df.shape1 = df'.shape1 → df.columnsMulti = df'.columnsMulti →
        df.indexIsMulti = df'.indexIsMulti →
        DataTable.declines cls df = DataTable.declines cls df')
    ∧ (DataTable.make cls df kw).truncated
        = df.iloc (kw.max_rows.getD cls.max_rows) (kw.max_columns.getD cls.max_columns) := by
  refine ⟨?_, ?_, ?_, rfl⟩
  · intro h
    rw [formatter_eq_gate, if_pos h]
  · intro h
    rw [formatter_eq_gate, if_neg ?_]
    simp [h]
  · intro e0 e1 e2 e3
    simp only [DataTable.declines, e0, e1, e2, e3]

/-- A five-row dataframe with three data columns (single-level
throughout). -/
def dfThreeCols : PandasDF :=
  { indexNames := ["index"], indexRows := [[Cell.int 0], [Cell.int 1]],
    colNames := ["a", "b", "c"],
    dataRows := [[Cell.int 1, Cell.int 2, Cell.int 3], [Cell.int 4, Cell.int 5, Cell.int 6]],
    columnsMulti := false }

theorem formatter_gate_uses_class_defaults_witness :
    DataTable.formatter { max_columns := 2 } dfThreeCols noKwargs = none
    ∧ DataTable.formatter defaultDataTableClass dfThreeCols noKwargs
        = (DataTable.make defaultDataTableClass dfThreeCols noKwargs)._repr_javascript_module_
    ∧ DataTable.declines defaultDataTableClass dfThreeCols
        = DataTable.declines defaultDataTableClass dfThreeCols := by
  refine ⟨?_, ?_, ?_⟩
  · exact (formatter_gate_uses_class_defaults { max_columns := 2 } dfThreeCols dfThreeCols
      noKwargs).1 (by decide)
  · exact (formatter_gate_uses_class_defaults defaultDataTableClass dfThreeCols dfThreeCols
      noKwargs).2.1 (by decide)
  · exact (formatter_gate_uses_class_defaults defaultDataTableClass dfThreeCols dfThreeCols
      noKwargs).2.2.1 rfl rfl rfl rfl

/-- The module state after a display request (the state component of
`_df_formatter_with_interactive_hint`). -/
def putState (st : HintState) (key : String) (df : PandasDF) : HintState :=
  (_df_formatter_with_interactive_hint st key df).2

theorem putState_last (st : HintState) (key : String) (df : PandasDF) :
    (putState st key df).last_noninteractive_df = [(key, df.copy false)] := by
  unfold putState _df_formatter_with_interactive_hint
  rw [ensureConvertCallback_last]
  simp [dictSet, dictRemove]

theorem putState_refs (st : HintState) (key : String) (df : PandasDF) :
    (putState st key df).noninteractive_df_refs
      = dictSet st.noninteractive_df_refs key { df := df, alive := true } := by
  unfold putState _df_formatter_with_interactive_hint
  rw [ensureConvertCallback_refs]

theorem dictLookup_releaseMap (l : List (String × WeakEntry)) (k : String) :
    dictLookup (l.map (fun p => if p.1 = k then (p.1, WeakEntry.mk p.2.df false) else p)) k
      = (dictLookup l k).map (fun e => WeakEntry.mk e.df false) := by
  induction l with
  | nil => rfl
  | cons p rest ih =>
    by_cases h : p.1 = k
    · simp [dictLookup, h]
    · simp [dictLookup, h, ih]

/-- C5 (amended): a put followed immediately by a resolve returns the
shallow strong-slot snapshot, content-equal to the dataframe put, and
empties the strong slot (remove-on-hit); a second resolve of the same
key does not return NotFound while the weak association is alive — it
pops the original out of the weak registry — and returns NotFound once
that association is released; a third resolve returns NotFound with the
explanatory message. -/
theorem handoff_cache_roundtrip (st : HintState) (key : String) (df : PandasDF) :
    (_get_dataframe (putState st key df) key).1 = some (df.copy false)
    ∧ (_get_dataframe (putState st key df) key).2.2.last_noninteractive_df = []
    ∧ (_get_dataframe ((_get_dataframe (putState st key df) key).2.2) key).1 = some df
    ∧ (_get_dataframe
        ((_get_dataframe ((_get_dataframe (putState st key df) key).2.2) key).2.2) key).1
        = none
    ∧ (_get_dataframe
        ((_get_dataframe ((_get_dataframe (putState st key df) key).2.2) key).2.2) key).2.1
        = some staleKeyMessage
    ∧ (_get_dataframe
        (releaseWeakRef ((_get_dataframe (putState st key df) key).2.2) key) key).1
        = none := by
  refine ⟨?_, ?_, ?_, ?_, ?_, ?_⟩ <;>
    simp [_get_dataframe, putState_last, putState_refs, weakLookup, releaseWeakRef,
      dictLookup_dictSet_self, dictLookup_dictRemove_self, dictLookup_releaseMap,
      dictRemove_single_self, dictLookup]

/-- C5 counterexample: against the claim that a second resolve of the
same key returns NotFound, the concrete put-resolve-resolve run returns
the dataframe again on the second resolve (from the still-alive weak
registry entry). -/
theorem second_resolve_returns_dataframe_counterexample :
    (_get_dataframe
        ((_get_dataframe (putState emptyHintState "df-key1" dfSimple) "df-key1").2.2)
        "df-key1").1
      = some dfSimple
    ∧ (_get_dataframe
        ((_get_dataframe (putState emptyHintState "df-key1" dfSimple) "df-key1").2.2)
        "df-key1").1
      ≠ none := by
  exact ⟨by decide, by decide⟩

/-- C6: after every display the strong single-slot cache holds exactly
one entry — the freshly minted key mapped to the shallow copy of the
dataframe just displayed — and any previous strong entry is discarded
unconditionally. -/
theorem strong_slot_exactly_one_entry (st : HintState) (key : String) (df : PandasDF) :
    (putState st key df).last_noninteractive_df = [(key, df.copy false)]
    ∧ (putState st key df).last_noninteractive_df.length = 1
    ∧ dictLookup (putState st key df).last_noninteractive_df key = some (df.copy false) := by
  refine ⟨putState_last st key df, ?_, ?_⟩
  · rw [putState_last]
    rfl
  · rw [putState_last]
    simp [dictLookup]

theorem ensureConvertCallback_contains (st : HintState) :
    dictContains (ensureConvertCallback st).output_callbacks convertFuncName = true := by
  unfold ensureConvertCallback
  by_cases h : dictContains st.output_callbacks convertFuncName
  · rw [if_pos h]
    exact h
  · rw [if_neg h]
    simp [dictContains, dictLookup_dictSet_self]

theorem ensureConvertCallback_of_contains (st : HintState)
    (h : dictContains st.output_callbacks convertFuncName = true) :
    ensureConvertCallback st = st := by
  unfold ensureConvertCallback
  rw [if_pos h]

theorem ensureConvertCallback_of_not_contains (st : HintState)
    (h : dictContains st.output_callbacks convertFuncName = false) :
    (ensureConvertCallback st).output_callbacks
      = dictSet st.output_callbacks convertFuncName st.callback_counter := by
  unfold ensureConvertCallback
  rw [if_neg (by simp [h])]

theorem putState_callbacks (st : HintState) (key : String) (df : PandasDF) :
    (putState st key df).output_callbacks
      = (ensureConvertCallback st).output_callbacks := by
  unfold putState _df_formatter_with_interactive_hint ensureConvertCallback
  by_cases h : dictContains st.output_callbacks convertFuncName = true <;> simp [h]

/-- C7: the registration performed on every display is idempotent — the
second and later displays leave `_output_callbacks` exactly as the
first one did, with a single binding for `convertToInteractive`, the
one minted first — and invoking the conversion handler with a stale or
unknown key returns `None` with the explanatory message rather than
raising. -/
theorem callback_registration_idempotent (cls : DataTableClass) (st : HintState)
    (k k' key : String) (d d' : PandasDF) :
    ensureConvertCallback (ensureConvertCallback st) = ensureConvertCallback st
    ∧ dictContains (putState st k d).output_callbacks convertFuncName = true
    ∧ (putState (putState st k d) k' d').output_callbacks = (putState st k d).output_callbacks
    ∧ (dictContains st.output_callbacks convertFuncName = false →
        (putState st k d).output_callbacks
          = dictSet st.output_callbacks convertFuncName st.callback_counter
        ∧ countKey (putState st k d).output_callbacks convertFuncName = 1)
    ∧ (dictContains st.output_callbacks convertFuncName = true →
        (putState st k d).output_callbacks = st.output_callbacks)
    ∧ (dictLookup st.last_noninteractive_df key = none →
        weakLookup st.noninteractive_df_refs key = none →
        (_convert_to_interactive cls st key).1 = none
        ∧ (_convert_to_interactive cls st key).2.1 = some staleKeyMessage) := by
  refine ⟨?_, ?_, ?_, ?_, ?_, ?_⟩
  · exact ensureConvertCallback_of_contains _ (ensureConvertCallback_contains st)
  · rw [putState_callbacks]
    exact ensureConvertCallback_contains st
  · rw [putState_callbacks]
    have hc : dictContains (putState st k d).output_callbacks convertFuncName = true := by
      rw [putState_callbacks]
      exact ensureConvertCallback_contains st
    rw [ensureConvertCallback_of_contains _ hc]
  · intro h
    rw [putState_callbacks, ensureConvertCallback_of_not_contains st h]
    exact ⟨rfl, countKey_dictSet_self _ _ _⟩
  · intro h
    rw [putState_callbacks, ensureConvertCallback_of_contains st h]
  · intro h1 h2
    unfold _convert_to_interactive _get_dataframe
    simp [h1, h2]

theorem callback_registration_idempotent_witness :
    countKey (putState emptyHintState "df-key2" dfSimple).output_callbacks convertFuncName = 1
    ∧ (_convert_to_interactive defaultDataTableClass emptyHintState "df-stale").1 = none := by
  have h := callback_registration_idempotent defaultDataTableClass emptyHintState
    "df-key2" "df-key3" "df-stale" dfSimple dfSimple
  exact ⟨(h.2.2.2.1 (by decide)).2, (h.2.2.2.2.2 (by decide) (by decide)).1⟩
